import Mathlib

/-!
Shallow embedding of the order-lifecycle code of this repository.

The embedding follows src/mcp-bearer-token/mcp_vendor.py: the order record,
the in-memory store (a list in insertion order, mirroring the insertion-ordered
Python dict), and the tool functions order_decide, order_ready, delivery_assign,
payment_request, order_delivered, order_paid, orders_list and new_order.
Machine time (time.time) is passed in explicitly as a natural number; the fresh
uuid of new_order is passed in as the chosen identifier. The str-valued status
enums render as their string values in messages, modelled by statusStr and
paymentStatusStr. A fragment of src/mcp_run.py (the place_order flow from the
point where item tokens have been split and their quantities read) is embedded
at the end of the definitions.
-/

inductive OrderStatus where
  | pending
  | accepted
  | rejected
  | ready
  | assigned
  | delivered
  | paid
deriving DecidableEq

inductive PaymentStatus where
  | unrequested
  | requested
  | paid
deriving DecidableEq

/-- String value of the OrderStatus str-enum, as interpolated into messages. -/
def statusStr : OrderStatus → String
  | OrderStatus.pending => "pending"
  | OrderStatus.accepted => "accepted"
  | OrderStatus.rejected => "rejected"
  | OrderStatus.ready => "ready"
  | OrderStatus.assigned => "assigned"
  | OrderStatus.delivered => "delivered"
  | OrderStatus.paid => "paid"

/-- String value of the PaymentStatus str-enum. -/
def paymentStatusStr : PaymentStatus → String
  | PaymentStatus.unrequested => "unrequested"
  | PaymentStatus.requested => "requested"
  | PaymentStatus.paid => "paid"

/-- The single-quote character used by the Python format strings. -/
def quo : String := String.mk [Char.ofNat 39]

structure Agent where
  id : String
  name : String
  phone : String
deriving DecidableEq

/-- The delivery_agents registry of mcp_vendor.py. -/
def delivery_agents : List Agent :=
  [⟨"agent_1", "Sam", "919991112223"⟩,
   ⟨"agent_2", "Asha", "918881112223"⟩,
   ⟨"agent_3", "Raj", "917771112223"⟩]

structure Customer where
  name : String
  phone : String
deriving DecidableEq

structure Item where
  sku : String
  qty : Nat
deriving DecidableEq

/-- The order record built by new_order in mcp_vendor.py. -/
structure Order where
  order_id : String
  vendor_id : String
  customer : Customer
  address : String
  items : List Item
  status : OrderStatus
  created_at : Nat
  accepted_at : Option Nat
  ready_at : Option Nat
  assigned_at : Option Nat
  delivered_at : Option Nat
  paid_at : Option Nat
  delivery_agent : Option Agent
  payment_requested : Bool
  payment_status : PaymentStatus
deriving DecidableEq

/-- The orders dict, as a list in insertion order. -/
abbrev Store := List Order

/-- The dict returned by a tool call: ok flag plus the optional fields the
various tools populate. -/
structure ToolResult where
  ok : Bool
  error : Option String := none
  status : Option OrderStatus := none
  vendor_message : Option String := none
  customer_message : Option String := none
  delivery_agent_options : Option (List (String × String)) := none
  agent_instructions : Option String := none
deriving DecidableEq

/-- The get_order lookup of mcp_vendor.py: dict lookup by order id. -/
def get_order (order_id : String) (s : Store) : Option Order :=
  s.find? (fun o => o.order_id == order_id)

/-- The validate_status helper of mcp_vendor.py. -/
def validate_status (o : Order) (expected_status : OrderStatus) : Option String :=
  if o.status ≠ expected_status then
    some ("Order must be " ++ quo ++ statusStr expected_status ++ quo ++ ", but is "
      ++ quo ++ statusStr o.status ++ quo ++ ".")
  else none

/-- The record new_order stores for a fresh order. -/
def initOrder (oid vendor_id customer_name customer_phone address : String)
    (items : List Item) (t : Nat) : Order :=
  { order_id := oid
    vendor_id := vendor_id
    customer := { name := customer_name, phone := customer_phone }
    address := address
    items := items
    status := OrderStatus.pending
    created_at := t
    accepted_at := none
    ready_at := none
    assigned_at := none
    delivered_at := none
    paid_at := none
    delivery_agent := none
    payment_requested := false
    payment_status := PaymentStatus.unrequested }

/-- The new_order helper of mcp_vendor.py: stores a fresh pending order under a fresh id
(the uuid is passed in as oid, the clock as t) and returns the id. -/
def new_order (vendor_id customer_name customer_phone address : String)
    (items : List Item) (oid : String) (t : Nat) (s : Store) : String × Store :=
  (oid, s ++ [initOrder oid vendor_id customer_name customer_phone address items t])

/-- In-place mutation of the dict entry found by get_order: replace the first
order whose id matches. -/
def setOrder (order_id : String) (o' : Order) : Store → Store
  | [] => []
  | o :: rest =>
    if o.order_id == order_id then o' :: rest else o :: setOrder order_id o' rest

/-- Body of order_decide on the order found in the store. -/
def order_decide_core (order_id : String) (accept : Bool) (t : Nat) (o : Order) :
    ToolResult × Order :=
  if o.status ≠ OrderStatus.pending then
    ({ ok := false, error := some ("Order already " ++ quo ++ statusStr o.status ++ quo ++ ".") }, o)
  else if accept then
    ({ ok := true
       status := some OrderStatus.accepted
       vendor_message := some ("Order " ++ order_id ++ " accepted.")
       customer_message := some ("Your order " ++ order_id ++ " is confirmed and being processed.") },
     { o with status := OrderStatus.accepted, accepted_at := some t })
  else
    ({ ok := true
       status := some OrderStatus.rejected
       vendor_message := some ("Order " ++ order_id ++ " rejected.")
       customer_message := some ("Unfortunately, your order could not be completed.") },
     { o with status := OrderStatus.rejected })

/-- The order_decide tool of mcp_vendor.py. -/
def order_decide (order_id : String) (accept : Bool) (t : Nat) (s : Store) :
    ToolResult × Store :=
  match get_order order_id s with
  | none => ({ ok := false, error := some ("order_not_found") }, s)
  | some o =>
    let ro := order_decide_core order_id accept t o
    (ro.1, setOrder order_id ro.2 s)

/-- Body of order_ready on the order found in the store. -/
def order_ready_core (order_id : String) (t : Nat) (o : Order) : ToolResult × Order :=
  match validate_status o OrderStatus.accepted with
  | some e => ({ ok := false, error := some e }, o)
  | none =>
    ({ ok := true
       status := some OrderStatus.ready
       vendor_message := some ("Order " ++ order_id ++ " is ready. Choose a delivery agent.")
       delivery_agent_options := some (delivery_agents.map (fun a => (a.id, a.name))) },
     { o with status := OrderStatus.ready, ready_at := some t })

/-- The order_ready tool of mcp_vendor.py. -/
def order_ready (order_id : String) (t : Nat) (s : Store) : ToolResult × Store :=
  match get_order order_id s with
  | none => ({ ok := false, error := some ("order_not_found") }, s)
  | some o =>
    let ro := order_ready_core order_id t o
    (ro.1, setOrder order_id ro.2 s)

/-- Body of delivery_assign on the order found in the store. -/
def delivery_assign_core (order_id agent_id : String) (t : Nat) (o : Order) :
    ToolResult × Order :=
  match validate_status o OrderStatus.ready with
  | some e => ({ ok := false, error := some e }, o)
  | none =>
    match delivery_agents.find? (fun a => a.id == agent_id) with
    | none => ({ ok := false, error := some ("agent_not_found") }, o)
    | some agent =>
      ({ ok := true
         status := some OrderStatus.assigned
         vendor_message := some ("Agent " ++ agent.name ++ " assigned to order " ++ order_id ++ ".")
         agent_instructions := some ("Please pick up order " ++ order_id ++ " and deliver to "
           ++ o.customer.name ++ " at " ++ o.address ++ ".") },
       { o with status := OrderStatus.assigned, assigned_at := some t, delivery_agent := some agent })

/-- The delivery_assign tool of mcp_vendor.py. -/
def delivery_assign (order_id agent_id : String) (t : Nat) (s : Store) :
    ToolResult × Store :=
  match get_order order_id s with
  | none => ({ ok := false, error := some ("order_not_found") }, s)
  | some o =>
    let ro := delivery_assign_core order_id agent_id t o
    (ro.1, setOrder order_id ro.2 s)

/-- Body of payment_request on the order found in the store; amount and
currency are accepted but never read. -/
def payment_request_core (order_id : String) (amount : Option ℚ) (currency : String)
    (o : Order) : ToolResult × Order :=
  if o.status ≠ OrderStatus.assigned ∧ o.status ≠ OrderStatus.delivered then
    ({ ok := false, error := some ("Can only request payment for assigned or delivered orders.") }, o)
  else
    ({ ok := true
       vendor_message := some ("Payment request sent for order " ++ order_id ++ ".") },
     { o with payment_status := PaymentStatus.requested })

/-- The payment_request tool of mcp_vendor.py. -/
def payment_request (order_id : String) (amount : Option ℚ) (currency : String)
    (s : Store) : ToolResult × Store :=
  match get_order order_id s with
  | none => ({ ok := false, error := some ("order_not_found") }, s)
  | some o =>
    let ro := payment_request_core order_id amount currency o
    (ro.1, setOrder order_id ro.2 s)

/-- Body of order_delivered on the order found in the store. -/
def order_delivered_core (order_id : String) (t : Nat) (o : Order) : ToolResult × Order :=
  match validate_status o OrderStatus.assigned with
  | some e => ({ ok := false, error := some e }, o)
  | none =>
    ({ ok := true, status := some OrderStatus.delivered },
     { o with status := OrderStatus.delivered, delivered_at := some t })

/-- The order_delivered tool of mcp_vendor.py. -/
def order_delivered (order_id : String) (t : Nat) (s : Store) : ToolResult × Store :=
  match get_order order_id s with
  | none => ({ ok := false, error := some ("order_not_found") }, s)
  | some o =>
    let ro := order_delivered_core order_id t o
    (ro.1, setOrder order_id ro.2 s)

/-- Body of order_paid on the order found in the store; the same message is
produced for a missing order and an order whose payment was not requested. -/
def order_paid_core (order_id : String) (t : Nat) (o : Order) : ToolResult × Order :=
  if o.payment_status ≠ PaymentStatus.requested then
    ({ ok := false, error := some ("Order not found or payment not requested.") }, o)
  else
    ({ ok := true, status := some OrderStatus.paid },
     { o with payment_status := PaymentStatus.paid, status := OrderStatus.paid, paid_at := some t })

/-- The order_paid tool of mcp_vendor.py. -/
def order_paid (order_id : String) (t : Nat) (s : Store) : ToolResult × Store :=
  match get_order order_id s with
  | none => ({ ok := false, error := some ("Order not found or payment not requested.") }, s)
  | some o =>
    let ro := order_paid_core order_id t o
    (ro.1, setOrder order_id ro.2 s)

/-- The two filtering comprehensions of orders_list: vendor filter, then the
optional truthy status filter. -/
def filteredOrders (vendor_id : String) (status_filter : Option String) (s : Store) :
    List Order :=
  let result := s.filter (fun o => o.vendor_id == vendor_id)
  match status_filter with
  | none => result
  | some f => if f = "" then result else result.filter (fun o => statusStr o.status == f)

/-- The orders_list tool of mcp_vendor.py: filter, then a stable sort on created_at,
descending; the store itself is returned untouched (the Python body only
builds and sorts a fresh list). -/
def orders_list (vendor_id : String) (status_filter : Option String) (s : Store) :
    (List Order × Nat) × Store :=
  let sorted := (filteredOrders vendor_id status_filter s).mergeSort
    (fun a b => decide (b.created_at ≤ a.created_at))
  ((sorted, sorted.length), s)

structure MenuEntry where
  price : ℚ
  unit : String
  available : Bool
deriving DecidableEq

/-- The menu of business_db in mcp_run.py. -/
def menu : List (String × MenuEntry) :=
  [("Seer Fish (Surmai)", ⟨800, "kg", true⟩),
   ("Pomfret (White)", ⟨650, "kg", true⟩),
   ("Pomfret (Black)", ⟨550, "kg", true⟩),
   ("Sardines (Tarle)", ⟨200, "kg", true⟩),
   ("Mackerel (Bangda)", ⟨300, "kg", true⟩),
   ("Kingfish (Viswon)", ⟨700, "kg", false⟩),
   ("Silver Fish (Kane)", ⟨400, "kg", true⟩),
   ("Pearl Spot (Karimeen)", ⟨900, "kg", true⟩),
   ("Tiger Prawns", ⟨1200, "kg", true⟩),
   ("White Prawns", ⟨1000, "kg", true⟩),
   ("Crabs (Medium)", ⟨600, "kg", true⟩),
   ("Squid", ⟨500, "kg", false⟩),
   ("Mussels", ⟨250, "kg", true⟩),
   ("Clams", ⟨300, "kg", true⟩)]

/-- An entry of the per-item error list built by place_order. -/
inductive ItemError where
  | notFound (item_name : String)
  | outOfStock (item : String)
deriving DecidableEq

/-- The stored order record of place_order in mcp_run.py. -/
structure BusinessOrder where
  customer_name : String
  customer_contact : String
  items : List (String × ℚ)
  special_instructions : String
  timestamp : String
deriving DecidableEq

/-- First menu key containing the item name, case-insensitively. -/
def matchMenuItem (m : List (String × MenuEntry)) (item_name : String) :
    Option (String × MenuEntry) :=
  m.find? (fun e => decide (item_name.toLower.data <:+: e.1.toLower.data))

/-- Python dict assignment on an association list: overwrite in place, else append. -/
def dictInsert (k : String) (v : ℚ) : List (String × ℚ) → List (String × ℚ)
  | [] => [(k, v)]
  | (k2, v2) :: rest =>
    if k2 == k then (k2, v) :: rest else (k2, v2) :: dictInsert k v rest

/-- One iteration of the item loop of place_order, from a token whose quantity
has already been read: match against the menu, record an error or the parsed
quantity. -/
def parseStep (acc : List ItemError × List (String × ℚ)) (tok : ℚ × String) :
    List ItemError × List (String × ℚ) :=
  match matchMenuItem menu tok.2 with
  | none => (acc.1 ++ [ItemError.notFound tok.2], acc.2)
  | some e =>
    if e.2.available = false then (acc.1 ++ [ItemError.outOfStock e.1], acc.2)
    else (acc.1, dictInsert e.1 tok.1 acc.2)

/-- Outcome of place_order: the two McpError raises, or a placed order. -/
inductive PlaceResult where
  | invalidItems (errs : List ItemError)
  | noValidItems
  | placed (total : ℚ)
deriving DecidableEq

/-- Price of a menu item by exact key. -/
def menuPrice (item : String) : ℚ :=
  ((menu.find? (fun e => e.1 == item)).map (fun e => e.2.price)).getD 0

/-- The place_order tool of mcp_run.py, from the point where the comma-split item
tokens have had their quantities read (the float parse of the raw text is
outside this embedding): match items against the menu, raise on any per-item
error, raise when no valid item remains, otherwise append the order. -/
def place_order (customer_name customer_contact : String) (tokens : List (ℚ × String))
    (special_instructions timestamp : String) (db_orders : List BusinessOrder) :
    PlaceResult × List BusinessOrder :=
  let ep := tokens.foldl parseStep ([], [])
  if ep.1 ≠ [] then (PlaceResult.invalidItems ep.1, db_orders)
  else if ep.2 = [] then (PlaceResult.noValidItems, db_orders)
  else
    let total := (ep.2.map (fun kv => menuPrice kv.1 * kv.2)).sum
    (PlaceResult.placed total,
     db_orders ++ [⟨customer_name, customer_contact, ep.2, special_instructions, timestamp⟩])

/-- One lifecycle call on a single order: the operation tag carries the clock
value (or the unused payment parameters) of the call. -/
inductive Op where
  | decide (accept : Bool) (t : Nat)
  | ready (t : Nat)
  | assign (agent_id : String) (t : Nat)
  | deliver (t : Nat)
  | requestPay (amount : Option ℚ) (currency : String)
  | confirmPay (t : Nat)

/-- Apply one lifecycle operation to one order (the body each tool runs on the
order found in the store). -/
def applyOp (op : Op) (oid : String) (o : Order) : ToolResult × Order :=
  match op with
  | Op.decide accept t => order_decide_core oid accept t o
  | Op.ready t => order_ready_core oid t o
  | Op.assign agent_id t => delivery_assign_core oid agent_id t o
  | Op.deliver t => order_delivered_core oid t o
  | Op.requestPay amount currency => payment_request_core oid amount currency o
  | Op.confirmPay t => order_paid_core oid t o

/-- Orders reachable from creation through the lifecycle operations. -/
inductive Reachable : Order → Prop where
  | init (oid vendor_id customer_name customer_phone address : String)
      (items : List Item) (t : Nat) :
      Reachable (initOrder oid vendor_id customer_name customer_phone address items t)
  | step (o : Order) (op : Op) (oid : String) :
      Reachable o → Reachable (applyOp op oid o).2

/-- The inductive invariant of the lifecycle: payment state is tied to order
state, and a timestamp of a transition the order has not yet taken is unset. -/
def LifecycleInv (o : Order) : Prop :=
  (o.payment_status = PaymentStatus.paid ↔ o.status = OrderStatus.paid) ∧
  (o.payment_status = PaymentStatus.requested →
    o.status = OrderStatus.assigned ∨ o.status = OrderStatus.delivered) ∧
  (o.status = OrderStatus.pending → o.accepted_at = none) ∧
  ((o.status = OrderStatus.pending ∨ o.status = OrderStatus.accepted) → o.ready_at = none) ∧
  ((o.status = OrderStatus.pending ∨ o.status = OrderStatus.accepted ∨
      o.status = OrderStatus.ready) → o.assigned_at = none) ∧
  ((o.status = OrderStatus.pending ∨ o.status = OrderStatus.accepted ∨
      o.status = OrderStatus.ready ∨ o.status = OrderStatus.assigned) →
    o.delivered_at = none) ∧
  (o.status ≠ OrderStatus.paid → o.paid_at = none)

theorem validate_status_eq_none (o : Order) (e : OrderStatus) (h : o.status = e) :
    validate_status o e = none := by
  simp [validate_status, h]

theorem validate_status_eq_some (o : Order) (e : OrderStatus) (h : o.status ≠ e) :
    validate_status o e = some ("Order must be " ++ quo ++ statusStr e ++ quo ++ ", but is "
      ++ quo ++ statusStr o.status ++ quo ++ ".") := by
  simp [validate_status, h]

theorem decide_core_fail (oid : String) (a : Bool) (t : Nat) (o : Order)
    (h : o.status ≠ OrderStatus.pending) :
    order_decide_core oid a t o =
      ({ ok := false, error := some ("Order already " ++ quo ++ statusStr o.status ++ quo ++ ".") }, o) := by
  simp [order_decide_core, h]

theorem decide_core_accept (oid : String) (t : Nat) (o : Order)
    (h : o.status = OrderStatus.pending) :
    order_decide_core oid true t o =
      ({ ok := true
         status := some OrderStatus.accepted
         vendor_message := some ("Order " ++ oid ++ " accepted.")
         customer_message := some ("Your order " ++ oid ++ " is confirmed and being processed.") },
       { o with status := OrderStatus.accepted, accepted_at := some t }) := by
  simp [order_decide_core, h]

theorem decide_core_reject (oid : String) (t : Nat) (o : Order)
    (h : o.status = OrderStatus.pending) :
    order_decide_core oid false t o =
      ({ ok := true
         status := some OrderStatus.rejected
         vendor_message := some ("Order " ++ oid ++ " rejected.")
         customer_message := some ("Unfortunately, your order could not be completed.") },
       { o with status := OrderStatus.rejected }) := by
  simp [order_decide_core, h]

theorem ready_core_fail (oid : String) (t : Nat) (o : Order)
    (h : o.status ≠ OrderStatus.accepted) :
    order_ready_core oid t o =
      ({ ok := false, error := some ("Order must be " ++ quo ++ statusStr OrderStatus.accepted
          ++ quo ++ ", but is " ++ quo ++ statusStr o.status ++ quo ++ ".") }, o) := by
  simp [order_ready_core, validate_status_eq_some o OrderStatus.accepted h]

theorem ready_core_succ (oid : String) (t : Nat) (o : Order)
    (h : o.status = OrderStatus.accepted) :
    order_ready_core oid t o =
      ({ ok := true
         status := some OrderStatus.ready
         vendor_message := some ("Order " ++ oid ++ " is ready. Choose a delivery agent.")
         delivery_agent_options := some (delivery_agents.map (fun a => (a.id, a.name))) },
       { o with status := OrderStatus.ready, ready_at := some t }) := by
  simp [order_ready_core, validate_status_eq_none o OrderStatus.accepted h]

theorem assign_core_fail_status (oid aid : String) (t : Nat) (o : Order)
    (h : o.status ≠ OrderStatus.ready) :
    delivery_assign_core oid aid t o =
      ({ ok := false, error := some ("Order must be " ++ quo ++ statusStr OrderStatus.ready
          ++ quo ++ ", but is " ++ quo ++ statusStr o.status ++ quo ++ ".") }, o) := by
  simp [delivery_assign_core, validate_status_eq_some o OrderStatus.ready h]

theorem assign_core_fail_agent (oid aid : String) (t : Nat) (o : Order)
    (h : o.status = OrderStatus.ready)
    (ha : delivery_agents.find? (fun a => a.id == aid) = none) :
    delivery_assign_core oid aid t o =
      ({ ok := false, error := some ("agent_not_found") }, o) := by
  simp [delivery_assign_core, validate_status_eq_none o OrderStatus.ready h, ha]

theorem assign_core_succ (oid aid : String) (t : Nat) (o : Order) (agent : Agent)
    (h : o.status = OrderStatus.ready)
    (ha : delivery_agents.find? (fun a => a.id == aid) = some agent) :
    delivery_assign_core oid aid t o =
      ({ ok := true
         status := some OrderStatus.assigned
         vendor_message := some ("Agent " ++ agent.name ++ " assigned to order " ++ oid ++ ".")
         agent_instructions := some ("Please pick up order " ++ oid ++ " and deliver to "
           ++ o.customer.name ++ " at " ++ o.address ++ ".") },
       { o with status := OrderStatus.assigned, assigned_at := some t,
                delivery_agent := some agent }) := by
  simp [delivery_assign_core, validate_status_eq_none o OrderStatus.ready h, ha]

theorem request_core_fail (oid : String) (am : Option ℚ) (c : String) (o : Order)
    (h : o.status ≠ OrderStatus.assigned) (h2 : o.status ≠ OrderStatus.delivered) :
    payment_request_core oid am c o =
      ({ ok := false, error := some ("Can only request payment for assigned or delivered orders.") }, o) := by
  simp [payment_request_core, h, h2]

theorem request_core_succ (oid : String) (am : Option ℚ) (c : String) (o : Order)
    (h : o.status = OrderStatus.assigned ∨ o.status = OrderStatus.delivered) :
    payment_request_core oid am c o =
      ({ ok := true, vendor_message := some ("Payment request sent for order " ++ oid ++ ".") },
       { o with payment_status := PaymentStatus.requested }) := by
  rcases h with h | h <;> simp [payment_request_core, h]

theorem deliver_core_fail (oid : String) (t : Nat) (o : Order)
    (h : o.status ≠ OrderStatus.assigned) :
    order_delivered_core oid t o =
      ({ ok := false, error := some ("Order must be " ++ quo ++ statusStr OrderStatus.assigned
          ++ quo ++ ", but is " ++ quo ++ statusStr o.status ++ quo ++ ".") }, o) := by
  simp [order_delivered_core, validate_status_eq_some o OrderStatus.assigned h]

theorem deliver_core_succ (oid : String) (t : Nat) (o : Order)
    (h : o.status = OrderStatus.assigned) :
    order_delivered_core oid t o =
      ({ ok := true, status := some OrderStatus.delivered },
       { o with status := OrderStatus.delivered, delivered_at := some t }) := by
  simp [order_delivered_core, validate_status_eq_none o OrderStatus.assigned h]

theorem paid_core_fail (oid : String) (t : Nat) (o : Order)
    (h : o.payment_status ≠ PaymentStatus.requested) :
    order_paid_core oid t o =
      ({ ok := false, error := some ("Order not found or payment not requested.") }, o) := by
  simp [order_paid_core, h]

theorem paid_core_succ (oid : String) (t : Nat) (o : Order)
    (h : o.payment_status = PaymentStatus.requested) :
    order_paid_core oid t o =
      ({ ok := true, status := some OrderStatus.paid },
       { o with payment_status := PaymentStatus.paid, status := OrderStatus.paid,
                paid_at := some t }) := by
  simp [order_paid_core, h]

theorem inv_init (oid vid cn cp addr : String) (items : List Item) (t : Nat) :
    LifecycleInv (initOrder oid vid cn cp addr items t) := by
  simp [LifecycleInv, initOrder]

theorem inv_step (o : Order) (op : Op) (oid : String) (h : LifecycleInv o) :
    LifecycleInv (applyOp op oid o).2 := by
  obtain ⟨h1, h2, h3, h4, h5, h6, h7⟩ := h
  cases op with
  | decide a t =>
    by_cases hs : o.status = OrderStatus.pending
    · simp only [hs] at h1 h2 h3 h4 h5 h6 h7
      cases a
      · simp only [applyOp, decide_core_reject oid t o hs]
        refine ⟨?_, ?_, ?_, ?_, ?_, ?_, ?_⟩ <;> simp_all [LifecycleInv]
      · simp only [applyOp, decide_core_accept oid t o hs]
        refine ⟨?_, ?_, ?_, ?_, ?_, ?_, ?_⟩ <;> simp_all [LifecycleInv]
    · simp only [applyOp, decide_core_fail oid a t o hs]
      exact ⟨h1, h2, h3, h4, h5, h6, h7⟩
  | ready t =>
    by_cases hs : o.status = OrderStatus.accepted
    · simp only [hs] at h1 h2 h3 h4 h5 h6 h7
      simp only [applyOp, ready_core_succ oid t o hs]
      refine ⟨?_, ?_, ?_, ?_, ?_, ?_, ?_⟩ <;> simp_all [LifecycleInv]
    · simp only [applyOp, ready_core_fail oid t o hs]
      exact ⟨h1, h2, h3, h4, h5, h6, h7⟩
  | assign aid t =>
    by_cases hs : o.status = OrderStatus.ready
    · cases ha : delivery_agents.find? (fun a => a.id == aid) with
      | none =>
        simp only [applyOp, assign_core_fail_agent oid aid t o hs ha]
        exact ⟨h1, h2, h3, h4, h5, h6, h7⟩
      | some agent =>
        simp only [hs] at h1 h2 h3 h4 h5 h6 h7
        simp only [applyOp, assign_core_succ oid aid t o agent hs ha]
        refine ⟨?_, ?_, ?_, ?_, ?_, ?_, ?_⟩ <;> simp_all [LifecycleInv]
    · simp only [applyOp, assign_core_fail_status oid aid t o hs]
      exact ⟨h1, h2, h3, h4, h5, h6, h7⟩
  | deliver t =>
    by_cases hs : o.status = OrderStatus.assigned
    · simp only [hs] at h1 h2 h3 h4 h5 h6 h7
      simp only [applyOp, deliver_core_succ oid t o hs]
      refine ⟨?_, ?_, ?_, ?_, ?_, ?_, ?_⟩ <;> simp_all [LifecycleInv]
    · simp only [applyOp, deliver_core_fail oid t o hs]
      exact ⟨h1, h2, h3, h4, h5, h6, h7⟩
  | requestPay am c =>
    by_cases hs : o.status = OrderStatus.assigned ∨ o.status = OrderStatus.delivered
    · simp only [applyOp, request_core_succ oid am c o hs]
      rcases hs with hs | hs <;>
        simp only [hs] at h1 h2 h3 h4 h5 h6 h7 <;>
        exact ⟨by simp_all, by simp_all [hs], by simp_all, by simp_all, by simp_all,
          by simp_all, by simp_all⟩
    · push_neg at hs
      simp only [applyOp, request_core_fail oid am c o hs.1 hs.2]
      exact ⟨h1, h2, h3, h4, h5, h6, h7⟩
  | confirmPay t =>
    by_cases hp : o.payment_status = PaymentStatus.requested
    · simp only [applyOp, paid_core_succ oid t o hp]
      refine ⟨?_, ?_, ?_, ?_, ?_, ?_, ?_⟩ <;> simp_all
    · simp only [applyOp, paid_core_fail oid t o hp]
      exact ⟨h1, h2, h3, h4, h5, h6, h7⟩

theorem reachable_inv (o : Order) (h : Reachable o) : LifecycleInv o := by
  induction h with
  | init oid vid cn cp addr items t => exact inv_init oid vid cn cp addr items t
  | step o2 op oid _ ih => exact inv_step o2 op oid ih

theorem get_order_beq (oid : String) (s : Store) (o : Order)
    (h : get_order oid s = some o) : (o.order_id == oid) = true := by
  have h' : List.find? (fun x => x.order_id == oid) s = some o := h
  have hb := List.find?_some h'
  simpa using hb

theorem setOrder_self (oid : String) (o : Order) :
    ∀ s : Store, get_order oid s = some o → setOrder oid o s = s := by
  intro s
  induction s with
  | nil => intro h; simp [get_order] at h
  | cons a rest ih =>
    intro h
    by_cases ha : (a.order_id == oid) = true
    · have hao : a = o := by
        simp only [get_order, List.find?_cons, ha] at h
        exact Option.some.inj h
      subst hao
      simp [setOrder, ha]
    · have h' : get_order oid rest = some o := by
        simpa only [get_order, List.find?_cons, ha] using h
      simp [setOrder, ha, ih h']

theorem get_order_setOrder (oid : String) (o o' : Order)
    (ho' : (o'.order_id == oid) = true) :
    ∀ s : Store, get_order oid s = some o →
      get_order oid (setOrder oid o' s) = some o' := by
  intro s
  induction s with
  | nil => intro h; simp [get_order] at h
  | cons a rest ih =>
    intro h
    by_cases ha : (a.order_id == oid) = true
    · simp [setOrder, ha, get_order, List.find?_cons, ho']
    · have h' : get_order oid rest = some o := by
        simpa only [get_order, List.find?_cons, ha] using h
      have hstep : setOrder oid o' (a :: rest) = a :: setOrder oid o' rest := by
        simp [setOrder, ha]
      rw [hstep]
      have hgoal : get_order oid (a :: setOrder oid o' rest) =
          get_order oid (setOrder oid o' rest) := by
        simp [get_order, List.find?_cons, ha]
      rw [hgoal]
      exact ih h'

theorem setOrder_setOrder (oid : String) (a b : Order)
    (ha : (a.order_id == oid) = true) :
    ∀ s : Store, setOrder oid b (setOrder oid a s) = setOrder oid b s := by
  intro s
  induction s with
  | nil => rfl
  | cons x rest ih =>
    by_cases hx : (x.order_id == oid) = true
    · simp [setOrder, hx, ha]
    · simp [setOrder, hx, ih]

/-- The first demo order seeded by mcp_vendor.py, with chosen uuid and time. -/
def demoOrder1 : Order :=
  initOrder ("o1") ("vendor_1") ("Neha") ("919876500001") ("221B Baker St") [⟨"chai", 2⟩] 10

/-- The second demo order seeded by mcp_vendor.py, with chosen uuid and time. -/
def demoOrder2 : Order :=
  initOrder ("o2") ("vendor_1") ("Arjun") ("919876500002") ("MG Road, BLR") [⟨"samosa", 6⟩] 11

/-- The demo store after seeding. -/
def demoStore : Store := [demoOrder1, demoOrder2]

/-- The transition edges of the lifecycle graph, phrased on the pair of an
order and its successor: either the status is unchanged, or the step is one
of the graph edges (the payment edge fires from a requested payment). -/
def EdgeOK (o o' : Order) : Prop :=
  o'.status = o.status ∨
  (o.status = OrderStatus.pending ∧ o'.status = OrderStatus.accepted) ∨
  (o.status = OrderStatus.pending ∧ o'.status = OrderStatus.rejected) ∨
  (o.status = OrderStatus.accepted ∧ o'.status = OrderStatus.ready) ∨
  (o.status = OrderStatus.ready ∧ o'.status = OrderStatus.assigned) ∨
  (o.status = OrderStatus.assigned ∧ o'.status = OrderStatus.delivered) ∨
  ((o.status = OrderStatus.assigned ∨ o.status = OrderStatus.delivered) ∧
    o.payment_status = PaymentStatus.requested ∧ o'.status = OrderStatus.paid)

/-- The precondition of each lifecycle operation fails on the given order
(for assign, also when the agent id does not resolve). -/
def precondFails (op : Op) (o : Order) : Prop :=
  match op with
  | Op.decide _ _ => o.status ≠ OrderStatus.pending
  | Op.ready _ => o.status ≠ OrderStatus.accepted
  | Op.assign aid _ => o.status ≠ OrderStatus.ready ∨
      delivery_agents.find? (fun a => a.id == aid) = none
  | Op.deliver _ => o.status ≠ OrderStatus.assigned
  | Op.requestPay _ _ => o.status ≠ OrderStatus.assigned ∧ o.status ≠ OrderStatus.delivered
  | Op.confirmPay _ => o.payment_status ≠ PaymentStatus.requested

/-- The message names the given order status (its string value occurs in it). -/
abbrev mentionsStatus (msg : String) (st : OrderStatus) : Prop :=
  (statusStr st).data <:+: msg.data

/-- The message names the given payment status. -/
abbrev mentionsPayment (msg : String) (ps : PaymentStatus) : Prop :=
  (paymentStatusStr ps).data <:+: msg.data

/-- Claim C9: the amount and currency parameters of payment_request have no
effect: any two choices of them produce the identical result and the
identical resulting store. -/
theorem claim_C9_payment_params_no_effect (order_id : String) (a1 a2 : Option ℚ)
    (c1 c2 : String) (s : Store) :
    payment_request order_id a1 c1 s = payment_request order_id a2 c2 s := rfl

/-- Claim C2 counterexample: new_order called with an empty items list on an
empty store creates an order anyway — the store afterwards holds exactly one
pending order whose items list is empty, and the call reports no error (its
result is just the fresh id). -/
theorem claim_C2_counterexample :
    (new_order ("vendor_1") ("Neha") ("919876500001") ("221B Baker St") [] ("oid_empty") 5 []).2 =
      [initOrder ("oid_empty") ("vendor_1") ("Neha") ("919876500001") ("221B Baker St") [] 5] ∧
    (new_order ("vendor_1") ("Neha") ("919876500001") ("221B Baker St") [] ("oid_empty") 5 []).1 =
      "oid_empty" ∧
    (initOrder ("oid_empty") ("vendor_1") ("Neha") ("919876500001") ("221B Baker St") [] 5).items
      = [] ∧
    (initOrder ("oid_empty") ("vendor_1") ("Neha") ("919876500001") ("221B Baker St") [] 5).status
      = OrderStatus.pending :=
  ⟨rfl, rfl, rfl, rfl⟩

/-- Claim C2 amended: the store-level creation helper new_order performs no
validation of its items argument and always creates the order (status Pending,
created_at = now, the items stored as given, the empty list included); the
emptiness rejection exists only in the separate place_order tool of
mcp_run.py, which raises InvalidParams and stores nothing when no valid item
remains after parsing. -/
theorem claim_C2_amended (vid cn cp addr : String) (items : List Item) (oid : String)
    (t : Nat) (s : Store) (cn2 cc si ts : String) (tokens : List (ℚ × String))
    (db : List BusinessOrder)
    (htok1 : (tokens.foldl parseStep ([], [])).1 = [])
    (htok2 : (tokens.foldl parseStep ([], [])).2 = []) :
    (new_order vid cn cp addr items oid t s).1 = oid ∧
    (new_order vid cn cp addr items oid t s).2 = s ++ [initOrder oid vid cn cp addr items t] ∧
    (initOrder oid vid cn cp addr items t).items = items ∧
    (initOrder oid vid cn cp addr items t).status = OrderStatus.pending ∧
    (initOrder oid vid cn cp addr items t).created_at = t ∧
    place_order cn2 cc tokens si ts db = (PlaceResult.noValidItems, db) := by
  refine ⟨rfl, rfl, rfl, rfl, rfl, ?_⟩
  simp [place_order, htok1, htok2]

/-- Claim C2 amended, witness at a concrete input (the empty token list). -/
theorem claim_C2_amended_witness :
    (new_order ("vendor_1") ("Neha") ("919876500001") ("221B Baker St") [] ("o9") 5 []).1 = "o9" ∧
    (new_order ("vendor_1") ("Neha") ("919876500001") ("221B Baker St") [] ("o9") 5 []).2 =
      [] ++ [initOrder ("o9") ("vendor_1") ("Neha") ("919876500001") ("221B Baker St") [] 5] ∧
    (initOrder ("o9") ("vendor_1") ("Neha") ("919876500001") ("221B Baker St") [] 5).items = [] ∧
    (initOrder ("o9") ("vendor_1") ("Neha") ("919876500001") ("221B Baker St") [] 5).status =
      OrderStatus.pending ∧
    (initOrder ("o9") ("vendor_1") ("Neha") ("919876500001") ("221B Baker St") [] 5).created_at = 5 ∧
    place_order ("John") ("+919876543210") [] ("") ("ts") [] = (PlaceResult.noValidItems, []) :=
  claim_C2_amended ("vendor_1") ("Neha") ("919876500001") ("221B Baker St") [] ("o9") 5 []
    ("John") ("+919876543210") ("") ("ts") [] [] rfl rfl

/-- Claim C4 counterexample: order_paid returns the very same error result for
an unknown order id as for a stored order whose payment was never requested,
so the not-found case is not distinguishable from the invalid-state case. -/
theorem claim_C4_counterexample :
    (order_paid ("missing") 0 []).1 = (order_paid ("o1") 0 demoStore).1 ∧
    (order_paid ("missing") 0 []).1 =
      { ok := false, error := some ("Order not found or payment not requested.") } ∧
    get_order ("missing") ([] : Store) = none ∧
    get_order ("o1") demoStore = some demoOrder1 ∧
    demoOrder1.payment_status ≠ PaymentStatus.requested := by
  refine ⟨?_, rfl, rfl, ?_, by decide⟩
  · rfl
  · rfl

/-- Claim C3 counterexample: on the pending demo order, payment_request fails
with the fixed message that names the expected states but not the actual one:
the actual status value "pending" does not occur in the message. -/
theorem claim_C3_counterexample :
    (payment_request ("o1") none ("INR") demoStore).1 =
      { ok := false,
        error := some ("Can only request payment for assigned or delivered orders.") } ∧
    demoOrder1.status = OrderStatus.pending ∧
    ¬ mentionsStatus ("Can only request payment for assigned or delivered orders.")
        OrderStatus.pending := by
  refine ⟨rfl, rfl, by decide⟩

/-- Claim C3 amended: only the three operations that validate through
validate_status (order_ready, delivery_assign, order_delivered) produce an
invalid-state message naming both the expected and the actual status;
order_decide names only the actual status, payment_request names only the
expected statuses, and order_paid names neither the actual status nor the
actual payment status. -/
theorem claim_C3_amended (o : Order) (oid aid : String) (a : Bool) (t : Nat)
    (am : Option ℚ) (c : String) :
    (o.status ≠ OrderStatus.accepted → ∃ e, (order_ready_core oid t o).1.error = some e ∧
      mentionsStatus e OrderStatus.accepted ∧ mentionsStatus e o.status) ∧
    (o.status ≠ OrderStatus.ready → ∃ e, (delivery_assign_core oid aid t o).1.error = some e ∧
      mentionsStatus e OrderStatus.ready ∧ mentionsStatus e o.status) ∧
    (o.status ≠ OrderStatus.assigned → ∃ e, (order_delivered_core oid t o).1.error = some e ∧
      mentionsStatus e OrderStatus.assigned ∧ mentionsStatus e o.status) ∧
    (o.status ≠ OrderStatus.pending → ∃ e, (order_decide_core oid a t o).1.error = some e ∧
      mentionsStatus e o.status ∧ ¬ mentionsStatus e OrderStatus.pending) ∧
    (o.status ≠ OrderStatus.assigned → o.status ≠ OrderStatus.delivered →
      ∃ e, (payment_request_core oid am c o).1.error = some e ∧
      mentionsStatus e OrderStatus.assigned ∧ mentionsStatus e OrderStatus.delivered ∧
      ¬ mentionsStatus e o.status) ∧
    (o.payment_status ≠ PaymentStatus.requested →
      ∃ e, (order_paid_core oid t o).1.error = some e ∧
      ¬ mentionsStatus e o.status ∧ ¬ mentionsPayment e o.payment_status) := by
  refine ⟨?_, ?_, ?_, ?_, ?_, ?_⟩
  · intro h
    simp only [ready_core_fail oid t o h]
    refine ⟨_, rfl, ?_, ?_⟩ <;>
      cases ho : o.status <;> first | (exact absurd ho h) | decide
  · intro h
    simp only [assign_core_fail_status oid aid t o h]
    refine ⟨_, rfl, ?_, ?_⟩ <;>
      cases ho : o.status <;> first | (exact absurd ho h) | decide
  · intro h
    simp only [deliver_core_fail oid t o h]
    refine ⟨_, rfl, ?_, ?_⟩ <;>
      cases ho : o.status <;> first | (exact absurd ho h) | decide
  · intro h
    simp only [decide_core_fail oid a t o h]
    refine ⟨_, rfl, ?_, ?_⟩ <;>
      cases ho : o.status <;> first | (exact absurd ho h) | decide
  · intro h1 h2
    simp only [request_core_fail oid am c o h1 h2]
    refine ⟨_, rfl, by decide, by decide, ?_⟩
    cases ho : o.status <;>
      first | (exact absurd ho h1) | (exact absurd ho h2) | decide
  · intro hp
    simp only [paid_core_fail oid t o hp]
    refine ⟨_, rfl, ?_, ?_⟩
    · cases ho : o.status <;> decide
    · cases hq : o.payment_status <;> first | (exact absurd hq hp) | decide

/-- Claim C3 amended, witness on the pending demo order. -/
theorem claim_C3_amended_witness :
    (demoOrder1.status ≠ OrderStatus.accepted →
      ∃ e, (order_ready_core ("o1") 12 demoOrder1).1.error = some e ∧
      mentionsStatus e OrderStatus.accepted ∧ mentionsStatus e demoOrder1.status) ∧
    (demoOrder1.status ≠ OrderStatus.ready →
      ∃ e, (delivery_assign_core ("o1") ("agent_1") 12 demoOrder1).1.error = some e ∧
      mentionsStatus e OrderStatus.ready ∧ mentionsStatus e demoOrder1.status) ∧
    (demoOrder1.status ≠ OrderStatus.assigned →
      ∃ e, (order_delivered_core ("o1") 12 demoOrder1).1.error = some e ∧
      mentionsStatus e OrderStatus.assigned ∧ mentionsStatus e demoOrder1.status) ∧
    (demoOrder1.status ≠ OrderStatus.pending →
      ∃ e, (order_decide_core ("o1") true 12 demoOrder1).1.error = some e ∧
      mentionsStatus e demoOrder1.status ∧ ¬ mentionsStatus e OrderStatus.pending) ∧
    (demoOrder1.status ≠ OrderStatus.assigned → demoOrder1.status ≠ OrderStatus.delivered →
      ∃ e, (payment_request_core ("o1") none ("INR") demoOrder1).1.error = some e ∧
      mentionsStatus e OrderStatus.assigned ∧ mentionsStatus e OrderStatus.delivered ∧
      ¬ mentionsStatus e demoOrder1.status) ∧
    (demoOrder1.payment_status ≠ PaymentStatus.requested →
      ∃ e, (order_paid_core ("o1") 12 demoOrder1).1.error = some e ∧
      ¬ mentionsStatus e demoOrder1.status ∧ ¬ mentionsPayment e demoOrder1.payment_status) :=
  claim_C3_amended demoOrder1 ("o1") ("agent_1") true 12 none ("INR")

/-- The demo order moved to the assigned status with payment requested. -/
def assignedRequested : Order :=
  { demoOrder1 with status := OrderStatus.assigned, payment_status := PaymentStatus.requested }

/-- The demo order moved to the assigned status. -/
def assignedOrder : Order := { demoOrder1 with status := OrderStatus.assigned }

/-- Claim C6: for an order present in the store, order_paid succeeds exactly
when its payment_status is requested; success sets payment_status and status
to paid and stamps paid_at with the current time, failure changes nothing. -/
theorem claim_C6_confirm_payment (oid : String) (t : Nat) (s : Store) (o : Order)
    (h : get_order oid s = some o) :
    ((order_paid oid t s).1.ok = true ↔ o.payment_status = PaymentStatus.requested) ∧
    (o.payment_status = PaymentStatus.requested →
      (order_paid oid t s).1 = { ok := true, status := some OrderStatus.paid } ∧
      get_order oid (order_paid oid t s).2 =
        some { o with payment_status := PaymentStatus.paid, status := OrderStatus.paid,
                      paid_at := some t }) ∧
    (o.payment_status ≠ PaymentStatus.requested →
      (order_paid oid t s).1 =
        { ok := false, error := some ("Order not found or payment not requested.") } ∧
      (order_paid oid t s).2 = s) := by
  have hb := get_order_beq oid s o h
  by_cases hp : o.payment_status = PaymentStatus.requested
  · have hpair : order_paid oid t s =
        ({ ok := true, status := some OrderStatus.paid },
         setOrder oid { o with payment_status := PaymentStatus.paid,
                               status := OrderStatus.paid, paid_at := some t } s) := by
      simp [order_paid, h, paid_core_succ oid t o hp]
    rw [hpair]
    refine ⟨by simp [hp], fun _ => ⟨rfl, ?_⟩, fun hn => absurd hp hn⟩
    exact get_order_setOrder oid o
      { o with payment_status := PaymentStatus.paid, status := OrderStatus.paid,
               paid_at := some t } hb s h
  · have hpair : order_paid oid t s =
        ({ ok := false, error := some ("Order not found or payment not requested.") },
         setOrder oid o s) := by
      simp [order_paid, h, paid_core_fail oid t o hp]
    rw [hpair]
    refine ⟨by simp [hp], fun hr => absurd hr hp, fun _ => ⟨rfl, ?_⟩⟩
    exact setOrder_self oid o s h

/-- Claim C6, witness: a store holding one assigned order with a requested
payment, where order_paid succeeds and pays it. -/
theorem claim_C6_witness :
    ((order_paid ("o1") 20 [assignedRequested]).1.ok = true ↔
      assignedRequested.payment_status = PaymentStatus.requested) ∧
    (assignedRequested.payment_status = PaymentStatus.requested →
      (order_paid ("o1") 20 [assignedRequested]).1 =
        { ok := true, status := some OrderStatus.paid } ∧
      get_order ("o1") (order_paid ("o1") 20 [assignedRequested]).2 =
        some { assignedRequested with
               payment_status := PaymentStatus.paid,
               status := OrderStatus.paid, paid_at := some 20 }) ∧
    (assignedRequested.payment_status ≠ PaymentStatus.requested →
      (order_paid ("o1") 20 [assignedRequested]).1 =
        { ok := false, error := some ("Order not found or payment not requested.") } ∧
      (order_paid ("o1") 20 [assignedRequested]).2 = [assignedRequested]) :=
  claim_C6_confirm_payment ("o1") 20 [assignedRequested] assignedRequested (by rfl)

/-- Claim C10: payment_request is idempotent on success: on a stored order in
the assigned or delivered status, a second identical call also succeeds,
returns the same result, and leaves the store exactly as after the first. -/
theorem claim_C10_request_idempotent (oid : String) (am : Option ℚ) (c : String)
    (s : Store) (o : Order) (h : get_order oid s = some o)
    (hs : o.status = OrderStatus.assigned ∨ o.status = OrderStatus.delivered) :
    (payment_request oid am c s).1.ok = true ∧
    (payment_request oid am c (payment_request oid am c s).2).1 =
      (payment_request oid am c s).1 ∧
    (payment_request oid am c (payment_request oid am c s).2).2 =
      (payment_request oid am c s).2 := by
  have hb := get_order_beq oid s o h
  have h1 : payment_request oid am c s =
      ({ ok := true, vendor_message := some ("Payment request sent for order " ++ oid ++ ".") },
       setOrder oid { o with payment_status := PaymentStatus.requested } s) := by
    simp [payment_request, h, request_core_succ oid am c o hs]
  have hget2 : get_order oid (setOrder oid { o with payment_status := PaymentStatus.requested } s)
      = some { o with payment_status := PaymentStatus.requested } :=
    get_order_setOrder oid o { o with payment_status := PaymentStatus.requested } hb s h
  have hs2 : ({ o with payment_status := PaymentStatus.requested } : Order).status =
      OrderStatus.assigned ∨
      ({ o with payment_status := PaymentStatus.requested } : Order).status =
      OrderStatus.delivered := hs
  have h2 : payment_request oid am c
        (setOrder oid { o with payment_status := PaymentStatus.requested } s) =
      ({ ok := true, vendor_message := some ("Payment request sent for order " ++ oid ++ ".") },
       setOrder oid { o with payment_status := PaymentStatus.requested }
         (setOrder oid { o with payment_status := PaymentStatus.requested } s)) := by
    simp [payment_request, hget2,
      request_core_succ oid am c { o with payment_status := PaymentStatus.requested } hs2]
  rw [h1]
  simp only [h2]
  refine ⟨trivial, trivial, ?_⟩
  exact setOrder_setOrder oid { o with payment_status := PaymentStatus.requested }
    { o with payment_status := PaymentStatus.requested } hb s

/-- Claim C10, witness: a store holding one assigned order. -/
theorem claim_C10_witness :
    (payment_request ("o1") none ("INR") [assignedOrder]).1.ok = true ∧
    (payment_request ("o1") none ("INR")
      (payment_request ("o1") none ("INR") [assignedOrder]).2).1 =
      (payment_request ("o1") none ("INR") [assignedOrder]).1 ∧
    (payment_request ("o1") none ("INR")
      (payment_request ("o1") none ("INR") [assignedOrder]).2).2 =
      (payment_request ("o1") none ("INR") [assignedOrder]).2 :=
  claim_C10_request_idempotent ("o1") none ("INR") [assignedOrder] assignedOrder
    (by rfl) (Or.inl rfl)

/-- Claim C4 amended: for an unknown order id every operation leaves the store
unchanged; order_decide, order_ready, delivery_assign, order_delivered and
payment_request report the dedicated error "order_not_found", while order_paid
reports a combined message that does not distinguish the unknown-id case from
the payment-not-requested case. -/
theorem claim_C4_amended (oid : String) (s : Store) (h : get_order oid s = none)
    (accept : Bool) (t : Nat) (agent_id : String) (am : Option ℚ) (c : String) :
    order_decide oid accept t s = ({ ok := false, error := some ("order_not_found") }, s) ∧
    order_ready oid t s = ({ ok := false, error := some ("order_not_found") }, s) ∧
    delivery_assign oid agent_id t s =
      ({ ok := false, error := some ("order_not_found") }, s) ∧
    order_delivered oid t s = ({ ok := false, error := some ("order_not_found") }, s) ∧
    payment_request oid am c s = ({ ok := false, error := some ("order_not_found") }, s) ∧
    order_paid oid t s =
      ({ ok := false, error := some ("Order not found or payment not requested.") }, s) := by
  refine ⟨?_, ?_, ?_, ?_, ?_, ?_⟩ <;>
    simp [order_decide, order_ready, delivery_assign, order_delivered, payment_request,
      order_paid, h]

/-- Claim C4 amended, witness: the empty store and an arbitrary id. -/
theorem claim_C4_amended_witness :
    order_decide ("nope") true 0 [] = ({ ok := false, error := some ("order_not_found") }, []) ∧
    order_ready ("nope") 0 [] = ({ ok := false, error := some ("order_not_found") }, []) ∧
    delivery_assign ("nope") ("agent_1") 0 [] =
      ({ ok := false, error := some ("order_not_found") }, []) ∧
    order_delivered ("nope") 0 [] = ({ ok := false, error := some ("order_not_found") }, []) ∧
    payment_request ("nope") none ("INR") [] =
      ({ ok := false, error := some ("order_not_found") }, []) ∧
    order_paid ("nope") 0 [] =
      ({ ok := false, error := some ("Order not found or payment not requested.") }, []) :=
  claim_C4_amended ("nope") [] rfl true 0 ("agent_1") none ("INR")

/-- Claim C1: on any reachable order, every lifecycle operation moves the
status only along the edges of the transition graph; a failed precondition
(or, for assign, a failed agent lookup) yields an error result and leaves the
order entirely unchanged, and a rejected or paid order is never mutated by any
operation. -/
theorem claim_C1_transition_graph (o : Order) (h : Reachable o) (op : Op) (oid : String) :
    EdgeOK o (applyOp op oid o).2 ∧
    ((applyOp op oid o).1.ok = false → (applyOp op oid o).2 = o) ∧
    (precondFails op o → (applyOp op oid o).1.ok = false ∧ (applyOp op oid o).2 = o) ∧
    ((o.status = OrderStatus.rejected ∨ o.status = OrderStatus.paid) →
      (applyOp op oid o).2 = o) := by
  obtain ⟨h1, h2, h3, h4, h5, h6, h7⟩ := reachable_inv o h
  cases op with
  | decide a t =>
    by_cases hs : o.status = OrderStatus.pending
    · cases a
      · simp only [applyOp, decide_core_reject oid t o hs]
        refine ⟨Or.inr (Or.inr (Or.inl ⟨hs, rfl⟩)), ?_, ?_, ?_⟩
        · intro hok; simp at hok
        · intro hpf; exact absurd hs hpf
        · intro hrp; rcases hrp with hr | hr <;> rw [hs] at hr <;> simp at hr
      · simp only [applyOp, decide_core_accept oid t o hs]
        refine ⟨Or.inr (Or.inl ⟨hs, rfl⟩), ?_, ?_, ?_⟩
        · intro hok; simp at hok
        · intro hpf; exact absurd hs hpf
        · intro hrp; rcases hrp with hr | hr <;> rw [hs] at hr <;> simp at hr
    · simp only [applyOp, decide_core_fail oid a t o hs]
      refine ⟨Or.inl rfl, ?_, ?_, ?_⟩ <;> intros <;> simp
  | ready t =>
    by_cases hs : o.status = OrderStatus.accepted
    · simp only [applyOp, ready_core_succ oid t o hs]
      refine ⟨Or.inr (Or.inr (Or.inr (Or.inl ⟨hs, rfl⟩))), ?_, ?_, ?_⟩
      · intro hok; simp at hok
      · intro hpf; exact absurd hs hpf
      · intro hrp; rcases hrp with hr | hr <;> rw [hs] at hr <;> simp at hr
    · simp only [applyOp, ready_core_fail oid t o hs]
      refine ⟨Or.inl rfl, ?_, ?_, ?_⟩ <;> intros <;> simp
  | assign aid t =>
    by_cases hs : o.status = OrderStatus.ready
    · cases ha : delivery_agents.find? (fun a => a.id == aid) with
      | none =>
        simp only [applyOp, assign_core_fail_agent oid aid t o hs ha]
        refine ⟨Or.inl rfl, ?_, ?_, ?_⟩ <;> intros <;> simp
      | some agent =>
        simp only [applyOp, assign_core_succ oid aid t o agent hs ha]
        refine ⟨Or.inr (Or.inr (Or.inr (Or.inr (Or.inl ⟨hs, rfl⟩)))), ?_, ?_, ?_⟩
        · intro hok; simp at hok
        · intro hpf
          rcases hpf with hpf | hpf
          · exact absurd hs hpf
          · rw [hpf] at ha; cases ha
        · intro hrp; rcases hrp with hr | hr <;> rw [hs] at hr <;> simp at hr
    · simp only [applyOp, assign_core_fail_status oid aid t o hs]
      refine ⟨Or.inl rfl, ?_, ?_, ?_⟩ <;> intros <;> simp
  | deliver t =>
    by_cases hs : o.status = OrderStatus.assigned
    · simp only [applyOp, deliver_core_succ oid t o hs]
      refine ⟨Or.inr (Or.inr (Or.inr (Or.inr (Or.inr (Or.inl ⟨hs, rfl⟩))))), ?_, ?_, ?_⟩
      · intro hok; simp at hok
      · intro hpf; exact absurd hs hpf
      · intro hrp; rcases hrp with hr | hr <;> rw [hs] at hr <;> simp at hr
    · simp only [applyOp, deliver_core_fail oid t o hs]
      refine ⟨Or.inl rfl, ?_, ?_, ?_⟩ <;> intros <;> simp
  | requestPay am c =>
    by_cases hs : o.status = OrderStatus.assigned ∨ o.status = OrderStatus.delivered
    · simp only [applyOp, request_core_succ oid am c o hs]
      refine ⟨Or.inl rfl, ?_, ?_, ?_⟩
      · intro hok; simp at hok
      · intro hpf
        rcases hs with hs | hs
        · exact absurd hs hpf.1
        · exact absurd hs hpf.2
      · intro hrp
        rcases hrp with hr | hr <;> rcases hs with hs | hs <;> rw [hs] at hr <;> simp at hr
    · push_neg at hs
      simp only [applyOp, request_core_fail oid am c o hs.1 hs.2]
      refine ⟨Or.inl rfl, ?_, ?_, ?_⟩ <;> intros <;> simp
  | confirmPay t =>
    by_cases hp : o.payment_status = PaymentStatus.requested
    · simp only [applyOp, paid_core_succ oid t o hp]
      refine ⟨Or.inr (Or.inr (Or.inr (Or.inr (Or.inr (Or.inr ⟨h2 hp, hp, rfl⟩))))), ?_, ?_, ?_⟩
      · intro hok; simp at hok
      · intro hpf; exact absurd hp hpf
      · intro hrp
        rcases h2 hp with hs | hs <;> rcases hrp with hr | hr <;>
          rw [hs] at hr <;> simp at hr
    · simp only [applyOp, paid_core_fail oid t o hp]
      refine ⟨Or.inl rfl, ?_, ?_, ?_⟩ <;> intros <;> simp

/-- Claim C1, witness: the fresh demo order with the accept operation. -/
theorem claim_C1_witness :
    EdgeOK demoOrder1 (applyOp (Op.decide true 12) ("o1") demoOrder1).2 ∧
    ((applyOp (Op.decide true 12) ("o1") demoOrder1).1.ok = false →
      (applyOp (Op.decide true 12) ("o1") demoOrder1).2 = demoOrder1) ∧
    (precondFails (Op.decide true 12) demoOrder1 →
      (applyOp (Op.decide true 12) ("o1") demoOrder1).1.ok = false ∧
      (applyOp (Op.decide true 12) ("o1") demoOrder1).2 = demoOrder1) ∧
    ((demoOrder1.status = OrderStatus.rejected ∨ demoOrder1.status = OrderStatus.paid) →
      (applyOp (Op.decide true 12) ("o1") demoOrder1).2 = demoOrder1) :=
  claim_C1_transition_graph demoOrder1
    (Reachable.init ("o1") ("vendor_1") ("Neha") ("919876500001") ("221B Baker St")
      [⟨"chai", 2⟩] 10)
    (Op.decide true 12) ("o1")

/-- Claim C5: on any reachable order, payment_status either stays the same, or
goes from unrequested to requested through a successful payment_request while
the status is assigned or delivered, or goes from requested to paid through a
successful order_paid; no other operation changes it. -/
theorem claim_C5_payment_status_changes (o : Order) (h : Reachable o) (op : Op)
    (oid : String) :
    (applyOp op oid o).2.payment_status = o.payment_status ∨
    (o.payment_status = PaymentStatus.unrequested ∧
      (applyOp op oid o).2.payment_status = PaymentStatus.requested ∧
      (o.status = OrderStatus.assigned ∨ o.status = OrderStatus.delivered) ∧
      (∃ am c, op = Op.requestPay am c) ∧ (applyOp op oid o).1.ok = true) ∨
    (o.payment_status = PaymentStatus.requested ∧
      (applyOp op oid o).2.payment_status = PaymentStatus.paid ∧
      (∃ t, op = Op.confirmPay t) ∧ (applyOp op oid o).1.ok = true) := by
  obtain ⟨h1, h2, h3, h4, h5, h6, h7⟩ := reachable_inv o h
  cases op with
  | decide a t =>
    by_cases hs : o.status = OrderStatus.pending
    · cases a
      · simp only [applyOp, decide_core_reject oid t o hs]
        exact Or.inl trivial
      · simp only [applyOp, decide_core_accept oid t o hs]
        exact Or.inl trivial
    · simp only [applyOp, decide_core_fail oid a t o hs]
      exact Or.inl trivial
  | ready t =>
    by_cases hs : o.status = OrderStatus.accepted
    · simp only [applyOp, ready_core_succ oid t o hs]
      exact Or.inl trivial
    · simp only [applyOp, ready_core_fail oid t o hs]
      exact Or.inl trivial
  | assign aid t =>
    by_cases hs : o.status = OrderStatus.ready
    · cases ha : delivery_agents.find? (fun a => a.id == aid) with
      | none =>
        simp only [applyOp, assign_core_fail_agent oid aid t o hs ha]
        exact Or.inl trivial
      | some agent =>
        simp only [applyOp, assign_core_succ oid aid t o agent hs ha]
        exact Or.inl trivial
    · simp only [applyOp, assign_core_fail_status oid aid t o hs]
      exact Or.inl trivial
  | deliver t =>
    by_cases hs : o.status = OrderStatus.assigned
    · simp only [applyOp, deliver_core_succ oid t o hs]
      exact Or.inl trivial
    · simp only [applyOp, deliver_core_fail oid t o hs]
      exact Or.inl trivial
  | requestPay am c =>
    by_cases hs : o.status = OrderStatus.assigned ∨ o.status = OrderStatus.delivered
    · simp only [applyOp, request_core_succ oid am c o hs]
      cases hq : o.payment_status with
      | unrequested => exact Or.inr (Or.inl ⟨rfl, trivial, hs, ⟨am, c, rfl⟩, trivial⟩)
      | requested => exact Or.inl rfl
      | paid =>
        exfalso
        have hpaid : o.status = OrderStatus.paid := h1.mp hq
        rcases hs with hs | hs <;> rw [hs] at hpaid <;> simp at hpaid
    · push_neg at hs
      simp only [applyOp, request_core_fail oid am c o hs.1 hs.2]
      exact Or.inl trivial
  | confirmPay t =>
    by_cases hp : o.payment_status = PaymentStatus.requested
    · simp only [applyOp, paid_core_succ oid t o hp]
      exact Or.inr (Or.inr ⟨hp, trivial, ⟨t, rfl⟩, trivial⟩)
    · simp only [applyOp, paid_core_fail oid t o hp]
      exact Or.inl trivial

/-- Claim C5, witness: the fresh demo order with the accept operation, whose
payment status is unchanged. -/
theorem claim_C5_witness :
    (applyOp (Op.decide true 12) ("o1") demoOrder1).2.payment_status =
      demoOrder1.payment_status ∨
    (demoOrder1.payment_status = PaymentStatus.unrequested ∧
      (applyOp (Op.decide true 12) ("o1") demoOrder1).2.payment_status =
        PaymentStatus.requested ∧
      (demoOrder1.status = OrderStatus.assigned ∨
        demoOrder1.status = OrderStatus.delivered) ∧
      (∃ am c, Op.decide true 12 = Op.requestPay am c) ∧
      (applyOp (Op.decide true 12) ("o1") demoOrder1).1.ok = true) ∨
    (demoOrder1.payment_status = PaymentStatus.requested ∧
      (applyOp (Op.decide true 12) ("o1") demoOrder1).2.payment_status =
        PaymentStatus.paid ∧
      (∃ t, Op.decide true 12 = Op.confirmPay t) ∧
      (applyOp (Op.decide true 12) ("o1") demoOrder1).1.ok = true) :=
  claim_C5_payment_status_changes demoOrder1
    (Reachable.init ("o1") ("vendor_1") ("Neha") ("919876500001") ("221B Baker St")
      [⟨"chai", 2⟩] 10)
    (Op.decide true 12) ("o1")

/-- One step of timestamp bookkeeping: each transition timestamp is either
untouched, or goes from unset to the clock value of exactly its own successful
transition; and a successful transition always stamps its own timestamp. -/
def TimestampStep (o o' : Order) (r : ToolResult) (op : Op) : Prop :=
  (o'.accepted_at = o.accepted_at ∨
    (o.accepted_at = none ∧ r.ok = true ∧
      ∃ t, op = Op.decide true t ∧ o'.accepted_at = some t)) ∧
  (∀ t, op = Op.decide true t → r.ok = true → o'.accepted_at = some t) ∧
  (o'.ready_at = o.ready_at ∨
    (o.ready_at = none ∧ r.ok = true ∧ ∃ t, op = Op.ready t ∧ o'.ready_at = some t)) ∧
  (∀ t, op = Op.ready t → r.ok = true → o'.ready_at = some t) ∧
  (o'.assigned_at = o.assigned_at ∨
    (o.assigned_at = none ∧ r.ok = true ∧
      ∃ aid t, op = Op.assign aid t ∧ o'.assigned_at = some t)) ∧
  (∀ aid t, op = Op.assign aid t → r.ok = true → o'.assigned_at = some t) ∧
  (o'.delivered_at = o.delivered_at ∨
    (o.delivered_at = none ∧ r.ok = true ∧ ∃ t, op = Op.deliver t ∧ o'.delivered_at = some t)) ∧
  (∀ t, op = Op.deliver t → r.ok = true → o'.delivered_at = some t) ∧
  (o'.paid_at = o.paid_at ∨
    (o.paid_at = none ∧ r.ok = true ∧ ∃ t, op = Op.confirmPay t ∧ o'.paid_at = some t)) ∧
  (∀ t, op = Op.confirmPay t → r.ok = true → o'.paid_at = some t)

/-- Claim C7: every transition timestamp starts unset at creation and, along
any reachable order and any operation, is set (to the clock of the call) at
most once, exactly by its own successful transition, and never overwritten. -/
theorem claim_C7_timestamps (o : Order) (h : Reachable o) (op : Op) (oid : String) :
    (∀ oid2 vid cn cp addr items t0,
      (initOrder oid2 vid cn cp addr items t0).accepted_at = none ∧
      (initOrder oid2 vid cn cp addr items t0).ready_at = none ∧
      (initOrder oid2 vid cn cp addr items t0).assigned_at = none ∧
      (initOrder oid2 vid cn cp addr items t0).delivered_at = none ∧
      (initOrder oid2 vid cn cp addr items t0).paid_at = none) ∧
    TimestampStep o (applyOp op oid o).2 (applyOp op oid o).1 op := by
  refine ⟨fun _ _ _ _ _ _ _ => ⟨rfl, rfl, rfl, rfl, rfl⟩, ?_⟩
  obtain ⟨h1, h2, h3, h4, h5, h6, h7⟩ := reachable_inv o h
  cases op with
  | decide a t =>
    by_cases hs : o.status = OrderStatus.pending
    · cases a
      · rw [show applyOp (Op.decide false t) oid o = order_decide_core oid false t o from rfl,
           decide_core_reject oid t o hs]
        exact ⟨Or.inl rfl, fun t' heq _ => by simp at heq,
               Or.inl rfl, fun t' heq _ => by simp at heq,
               Or.inl rfl, fun aid t' heq _ => by simp at heq,
               Or.inl rfl, fun t' heq _ => by simp at heq,
               Or.inl rfl, fun t' heq _ => by simp at heq⟩
      · rw [show applyOp (Op.decide true t) oid o = order_decide_core oid true t o from rfl,
           decide_core_accept oid t o hs]
        exact ⟨Or.inr ⟨h3 hs, rfl, t, rfl, rfl⟩,
               fun t' heq _ => by injection heq with hb ht; rw [ht],
               Or.inl rfl, fun t' heq _ => by simp at heq,
               Or.inl rfl, fun aid t' heq _ => by simp at heq,
               Or.inl rfl, fun t' heq _ => by simp at heq,
               Or.inl rfl, fun t' heq _ => by simp at heq⟩
    · rw [show applyOp (Op.decide a t) oid o = order_decide_core oid a t o from rfl,
         decide_core_fail oid a t o hs]
      exact ⟨Or.inl rfl, fun t' _ hok => by simp at hok,
             Or.inl rfl, fun t' _ hok => by simp at hok,
             Or.inl rfl, fun aid t' _ hok => by simp at hok,
             Or.inl rfl, fun t' _ hok => by simp at hok,
             Or.inl rfl, fun t' _ hok => by simp at hok⟩
  | ready t =>
    by_cases hs : o.status = OrderStatus.accepted
    · rw [show applyOp (Op.ready t) oid o = order_ready_core oid t o from rfl,
         ready_core_succ oid t o hs]
      exact ⟨Or.inl rfl, fun t' heq _ => by simp at heq,
             Or.inr ⟨h4 (Or.inr hs), rfl, t, rfl, rfl⟩,
             fun t' heq _ => by injection heq with ht; rw [ht],
             Or.inl rfl, fun aid t' heq _ => by simp at heq,
             Or.inl rfl, fun t' heq _ => by simp at heq,
             Or.inl rfl, fun t' heq _ => by simp at heq⟩
    · rw [show applyOp (Op.ready t) oid o = order_ready_core oid t o from rfl,
         ready_core_fail oid t o hs]
      exact ⟨Or.inl rfl, fun t' _ hok => by simp at hok,
             Or.inl rfl, fun t' _ hok => by simp at hok,
             Or.inl rfl, fun aid t' _ hok => by simp at hok,
             Or.inl rfl, fun t' _ hok => by simp at hok,
             Or.inl rfl, fun t' _ hok => by simp at hok⟩
  | assign aid t =>
    by_cases hs : o.status = OrderStatus.ready
    · cases ha : delivery_agents.find? (fun a => a.id == aid) with
      | none =>
        rw [show applyOp (Op.assign aid t) oid o = delivery_assign_core oid aid t o from rfl,
           assign_core_fail_agent oid aid t o hs ha]
        exact ⟨Or.inl rfl, fun t' _ hok => by simp at hok,
               Or.inl rfl, fun t' _ hok => by simp at hok,
               Or.inl rfl, fun aid' t' _ hok => by simp at hok,
               Or.inl rfl, fun t' _ hok => by simp at hok,
               Or.inl rfl, fun t' _ hok => by simp at hok⟩
      | some agent =>
        rw [show applyOp (Op.assign aid t) oid o = delivery_assign_core oid aid t o from rfl,
           assign_core_succ oid aid t o agent hs ha]
        exact ⟨Or.inl rfl, fun t' heq _ => by simp at heq,
               Or.inl rfl, fun t' heq _ => by simp at heq,
               Or.inr ⟨h5 (Or.inr (Or.inr hs)), rfl, aid, t, rfl, rfl⟩,
               fun aid' t' heq _ => by injection heq with ha' ht; rw [ht],
               Or.inl rfl, fun t' heq _ => by simp at heq,
               Or.inl rfl, fun t' heq _ => by simp at heq⟩
    · rw [show applyOp (Op.assign aid t) oid o = delivery_assign_core oid aid t o from rfl,
         assign_core_fail_status oid aid t o hs]
      exact ⟨Or.inl rfl, fun t' _ hok => by simp at hok,
             Or.inl rfl, fun t' _ hok => by simp at hok,
             Or.inl rfl, fun aid' t' _ hok => by simp at hok,
             Or.inl rfl, fun t' _ hok => by simp at hok,
             Or.inl rfl, fun t' _ hok => by simp at hok⟩
  | deliver t =>
    by_cases hs : o.status = OrderStatus.assigned
    · rw [show applyOp (Op.deliver t) oid o = order_delivered_core oid t o from rfl,
         deliver_core_succ oid t o hs]
      exact ⟨Or.inl rfl, fun t' heq _ => by simp at heq,
             Or.inl rfl, fun t' heq _ => by simp at heq,
             Or.inl rfl, fun aid t' heq _ => by simp at heq,
             Or.inr ⟨h6 (Or.inr (Or.inr (Or.inr hs))), rfl, t, rfl, rfl⟩,
             fun t' heq _ => by injection heq with ht; rw [ht],
             Or.inl rfl, fun t' heq _ => by simp at heq⟩
    · rw [show applyOp (Op.deliver t) oid o = order_delivered_core oid t o from rfl,
         deliver_core_fail oid t o hs]
      exact ⟨Or.inl rfl, fun t' _ hok => by simp at hok,
             Or.inl rfl, fun t' _ hok => by simp at hok,
             Or.inl rfl, fun aid t' _ hok => by simp at hok,
             Or.inl rfl, fun t' _ hok => by simp at hok,
             Or.inl rfl, fun t' _ hok => by simp at hok⟩
  | requestPay am c =>
    by_cases hs : o.status = OrderStatus.assigned ∨ o.status = OrderStatus.delivered
    · rw [show applyOp (Op.requestPay am c) oid o = payment_request_core oid am c o from rfl,
         request_core_succ oid am c o hs]
      exact ⟨Or.inl rfl, fun t' heq _ => by simp at heq,
             Or.inl rfl, fun t' heq _ => by simp at heq,
             Or.inl rfl, fun aid t' heq _ => by simp at heq,
             Or.inl rfl, fun t' heq _ => by simp at heq,
             Or.inl rfl, fun t' heq _ => by simp at heq⟩
    · push_neg at hs
      rw [show applyOp (Op.requestPay am c) oid o = payment_request_core oid am c o from rfl,
         request_core_fail oid am c o hs.1 hs.2]
      exact ⟨Or.inl rfl, fun t' _ hok => by simp at hok,
             Or.inl rfl, fun t' _ hok => by simp at hok,
             Or.inl rfl, fun aid t' _ hok => by simp at hok,
             Or.inl rfl, fun t' _ hok => by simp at hok,
             Or.inl rfl, fun t' _ hok => by simp at hok⟩
  | confirmPay t =>
    by_cases hp : o.payment_status = PaymentStatus.requested
    · have hnp : o.status ≠ OrderStatus.paid := by
        intro hps
        have hpp := h1.mpr hps
        rw [hp] at hpp
        simp at hpp
      rw [show applyOp (Op.confirmPay t) oid o = order_paid_core oid t o from rfl,
         paid_core_succ oid t o hp]
      exact ⟨Or.inl rfl, fun t' heq _ => by simp at heq,
             Or.inl rfl, fun t' heq _ => by simp at heq,
             Or.inl rfl, fun aid t' heq _ => by simp at heq,
             Or.inl rfl, fun t' heq _ => by simp at heq,
             Or.inr ⟨h7 hnp, rfl, t, rfl, rfl⟩,
             fun t' heq _ => by injection heq with ht; rw [ht]⟩
    · rw [show applyOp (Op.confirmPay t) oid o = order_paid_core oid t o from rfl,
         paid_core_fail oid t o hp]
      exact ⟨Or.inl rfl, fun t' _ hok => by simp at hok,
             Or.inl rfl, fun t' _ hok => by simp at hok,
             Or.inl rfl, fun aid t' _ hok => by simp at hok,
             Or.inl rfl, fun t' _ hok => by simp at hok,
             Or.inl rfl, fun t' _ hok => by simp at hok⟩

/-- Claim C7, witness: the fresh demo order with the accept operation. -/
theorem claim_C7_witness :
    (∀ oid2 vid cn cp addr items t0,
      (initOrder oid2 vid cn cp addr items t0).accepted_at = none ∧
      (initOrder oid2 vid cn cp addr items t0).ready_at = none ∧
      (initOrder oid2 vid cn cp addr items t0).assigned_at = none ∧
      (initOrder oid2 vid cn cp addr items t0).delivered_at = none ∧
      (initOrder oid2 vid cn cp addr items t0).paid_at = none) ∧
    TimestampStep demoOrder1 (applyOp (Op.decide true 12) ("o1") demoOrder1).2
      (applyOp (Op.decide true 12) ("o1") demoOrder1).1 (Op.decide true 12) :=
  claim_C7_timestamps demoOrder1
    (Reachable.init ("o1") ("vendor_1") ("Neha") ("919876500001") ("221B Baker St")
      [⟨"chai", 2⟩] 10)
    (Op.decide true 12) ("o1")

theorem mem_filteredOrders (vid : String) (f : Option String) (s : Store) (o : Order)
    (ho : o ∈ filteredOrders vid f s) : o ∈ s ∧ o.vendor_id = vid := by
  cases f with
  | none =>
    rw [filteredOrders, List.mem_filter] at ho
    exact ⟨ho.1, by simpa using ho.2⟩
  | some fs =>
    by_cases hf : fs = ""
    · simp only [filteredOrders, hf, if_true, List.mem_filter, beq_iff_eq, ite_true,
        eq_self_iff_true] at ho
      tauto
    · simp only [filteredOrders, hf, if_false, List.mem_filter, beq_iff_eq, ite_false] at ho
      tauto

theorem filteredOrders_nil (vid : String) (f : Option String) (s : Store)
    (h : s.filter (fun o => o.vendor_id == vid) = []) : filteredOrders vid f s = [] := by
  cases f with
  | none => exact h
  | some fs => simp [filteredOrders, h]

/-- Claim C8: orders_list never touches the store, returns (with its count)
exactly the orders of the given vendor (further narrowed by a truthy status
filter into a subset of the unfiltered result), sorted by created_at
descending with ties kept in insertion order, and yields the empty list, not
an error, when nothing matches. -/
theorem claim_C8_orders_list (vid : String) (f : Option String) (s : Store) :
    (orders_list vid f s).2 = s ∧
    (orders_list vid f s).1.2 = (orders_list vid f s).1.1.length ∧
    (orders_list vid f s).1.1.Perm (filteredOrders vid f s) ∧
    (∀ o ∈ (orders_list vid f s).1.1, o ∈ s ∧ o.vendor_id = vid) ∧
    (∀ fs, f = some fs → fs ≠ "" → ∀ o ∈ (orders_list vid f s).1.1,
      statusStr o.status = fs ∧ o ∈ (orders_list vid none s).1.1) ∧
    List.Pairwise (fun a b => b.created_at ≤ a.created_at) (orders_list vid f s).1.1 ∧
    (∀ a b : Order, [a, b].Sublist (filteredOrders vid f s) →
      a.created_at = b.created_at → [a, b].Sublist (orders_list vid f s).1.1) ∧
    ((∀ o ∈ s, o.vendor_id ≠ vid) → (orders_list vid f s).1.1 = []) := by
  have htrans : ∀ (a b c : Order),
      (fun x y : Order => decide (y.created_at ≤ x.created_at)) a b = true →
      (fun x y : Order => decide (y.created_at ≤ x.created_at)) b c = true →
      (fun x y : Order => decide (y.created_at ≤ x.created_at)) a c = true := by
    intro a b c hab hbc
    simp only [decide_eq_true_eq] at hab hbc ⊢
    omega
  have htotal : ∀ (a b : Order),
      ((fun x y : Order => decide (y.created_at ≤ x.created_at)) a b ||
       (fun x y : Order => decide (y.created_at ≤ x.created_at)) b a) = true := by
    intro a b
    simp only [Bool.or_eq_true, decide_eq_true_eq]
    omega
  refine ⟨rfl, rfl, List.mergeSort_perm _ _, ?_, ?_, ?_, ?_, ?_⟩
  · intro o ho
    rw [show (orders_list vid f s).1.1 =
        (filteredOrders vid f s).mergeSort
          (fun x y : Order => decide (y.created_at ≤ x.created_at)) from rfl,
      List.mem_mergeSort] at ho
    exact mem_filteredOrders vid f s o ho
  · intro fs hf hne o ho
    subst hf
    rw [show (orders_list vid (some fs) s).1.1 =
        (filteredOrders vid (some fs) s).mergeSort
          (fun x y : Order => decide (y.created_at ≤ x.created_at)) from rfl,
      List.mem_mergeSort] at ho
    rw [filteredOrders] at ho
    simp only [hne, if_false, ite_false] at ho
    rw [List.mem_filter] at ho
    refine ⟨by simpa using ho.2, ?_⟩
    rw [show (orders_list vid none s).1.1 =
        (filteredOrders vid none s).mergeSort
          (fun x y : Order => decide (y.created_at ≤ x.created_at)) from rfl,
      List.mem_mergeSort]
    exact ho.1
  · have hp := List.sorted_mergeSort htrans htotal (filteredOrders vid f s)
    exact hp.imp (fun hab => by simpa using hab)
  · intro a b hsub heq
    have hle : (fun x y : Order => decide (y.created_at ≤ x.created_at)) a b = true := by
      simp [heq]
    exact List.pair_sublist_mergeSort htrans htotal hle hsub
  · intro hnone
    have hfil : s.filter (fun o => o.vendor_id == vid) = [] := by
      rw [List.filter_eq_nil_iff]
      intro o ho
      simpa using hnone o ho
    rw [show (orders_list vid f s).1.1 =
        (filteredOrders vid f s).mergeSort
          (fun x y : Order => decide (y.created_at ≤ x.created_at)) from rfl,
      filteredOrders_nil vid f s hfil]
    exact List.mergeSort_nil

/-- Claim C8, witness: the demo store with no status filter. -/
theorem claim_C8_witness :
    (orders_list ("vendor_1") none demoStore).2 = demoStore ∧
    (orders_list ("vendor_1") none demoStore).1.2 =
      (orders_list ("vendor_1") none demoStore).1.1.length ∧
    (orders_list ("vendor_1") none demoStore).1.1.Perm
      (filteredOrders ("vendor_1") none demoStore) ∧
    (∀ o ∈ (orders_list ("vendor_1") none demoStore).1.1,
      o ∈ demoStore ∧ o.vendor_id = "vendor_1") ∧
    (∀ fs, (none : Option String) = some fs → fs ≠ "" →
      ∀ o ∈ (orders_list ("vendor_1") none demoStore).1.1,
        statusStr o.status = fs ∧ o ∈ (orders_list ("vendor_1") none demoStore).1.1) ∧
    List.Pairwise (fun a b => b.created_at ≤ a.created_at)
      (orders_list ("vendor_1") none demoStore).1.1 ∧
    (∀ a b : Order, [a, b].Sublist (filteredOrders ("vendor_1") none demoStore) →
      a.created_at = b.created_at →
      [a, b].Sublist (orders_list ("vendor_1") none demoStore).1.1) ∧
    ((∀ o ∈ demoStore, o.vendor_id ≠ "vendor_1") →
      (orders_list ("vendor_1") none demoStore).1.1 = []) :=
  claim_C8_orders_list ("vendor_1") none demoStore
